import Mathlib

/-!
Verification of the DTLZ test-suite evaluator
(include/pagmo/problems/dtlz.hpp).

The decision vectors (C++ type vector_double, a vector of doubles) are
embedded as lists of real numbers; double arithmetic is idealised as real
arithmetic.  The index type vector_double::size_type (a 64-bit size_t) is
embedded as a natural number, with its maximum made explicit where the
source compares against it.  Fallible operations (the constructor and the
per-vector p_distance, which throw std::invalid_argument) are embedded in
the Except monad.
-/

noncomputable section

namespace Dtlz

/-- Configuration stored by the dtlz class: fields m_prob_id, m_alpha,
m_dim and m_fdim, in declaration order. -/
structure DtlzCfg where
  probId : ℕ
  alpha : ℕ
  dim : ℕ
  fdim : ℕ
  deriving DecidableEq

/-- Maximum of vector_double::size_type (std::size_t, 64 bits). -/
def size_type_max : ℕ := 2 ^ 64 - 1

/-- Constructor dtlz::dtlz: the validation chain of the C++ constructor,
in source order, each failure carrying the source message. -/
def dtlz_ctor (prob_id dim fdim alpha : ℕ) : Except String DtlzCfg :=
  if prob_id = 0 ∨ prob_id > 7 then
    Except.error ("DTLZ test suite contains seven (prob_id = [1 ... 7]) problems, prob_id="
      ++ toString prob_id ++ " was detected")
  else if fdim < 2 then
    Except.error ("DTLZ test problem have a minimum of 2 objectives: fdim="
      ++ toString fdim ++ " was detected")
  else if fdim > size_type_max / 3 then
    Except.error "The number of objectives is too large"
  else if dim > size_type_max / 3 then
    Except.error "The problem dimension is too large"
  else if dim ≤ fdim then
    Except.error "The problem dimension has to be larger than the number of objectives."
  else
    Except.ok ⟨prob_id, alpha, dim, fdim⟩

/-- Unchecked vector access x[i] of the C++ operator[]; out-of-range reads
default to 0 (the shallow-embedding total version; the Option-returning
version below tracks bounds). -/
def nth (x : List ℝ) (i : ℕ) : ℝ := x.getD i 0

/-- g13_func: y accumulates pow(x[i]-0.5, 2) - cos(20 pi (x[i]-0.5));
returns 100 * (y + x.size()). -/
def g13_func (x : List ℝ) : ℝ :=
  100 * ((x.map (fun xi => (xi - 1/2) ^ 2 - Real.cos (20 * Real.pi * (xi - 1/2)))).sum
    + (x.length : ℝ))

/-- g245_func: sum of pow(x[i]-0.5, 2). -/
def g245_func (x : List ℝ) : ℝ :=
  (x.map (fun xi => (xi - 1/2) ^ 2)).sum

/-- g6_func: sum of pow(x[i], 0.1) (real-exponent pow). -/
def g6_func (x : List ℝ) : ℝ :=
  (x.map (fun xi => xi ^ ((1 : ℝ)/10))).sum

/-- g7_func: (9 / x.size()) * sum x[i].  The source deliberately drops the
+1 of the literature definition (see the NOTE comment in the source). -/
def g7_func (x : List ℝ) : ℝ :=
  (9 / (x.length : ℝ)) * x.sum

/-- The switch cases of g_func, including the fall-through that returns
the sentinel -1. -/
inductive GCase where
  | g6 | g7 | g13 | g245 | fallthrough
  deriving DecidableEq

/-- Which case of the g_func switch a given prob_id enters (source case
order: 6, 7, then 1/3, then 2/4/5, then fall-through). -/
def g_case (prob_id : ℕ) : GCase :=
  if prob_id = 6 then GCase.g6
  else if prob_id = 7 then GCase.g7
  else if prob_id = 1 ∨ prob_id = 3 then GCase.g13
  else if prob_id = 2 ∨ prob_id = 4 ∨ prob_id = 5 then GCase.g245
  else GCase.fallthrough

/-- g_func: the distance-function dispatcher switching on m_prob_id, with
the fall-through return of -1. -/
def g_func (prob_id : ℕ) (x : List ℝ) : ℝ :=
  if prob_id = 6 then g6_func x
  else if prob_id = 7 then g7_func x
  else if prob_id = 1 ∨ prob_id = 3 then g13_func x
  else if prob_id = 2 ∨ prob_id = 4 ∨ prob_id = 5 then g245_func x
  else -1

/-- h7_func: m_fdim minus the sum over all but the last entry of f of
(f[i] / (1+g)) * (1 + sin(3 pi f[i])). -/
def h7_func (fdim : ℕ) (f : List ℝ) (g : ℝ) : ℝ :=
  (fdim : ℝ) - ((f.take (f.length - 1)).map
    (fun fi => fi / (1 + g) * (1 + Real.sin (3 * Real.pi * fi)))).sum

/-- Left-to-right product x[0] * ... * x[k-1], as accumulated by the
C++ loops multiplying f[i] by successive components. -/
def prodX (x : List ℝ) : ℕ → ℝ
  | 0 => 1
  | k + 1 => prodX x k * nth x k

/-- Entry i of the DTLZ1 objective vector.  The last assignment of the
C++ function overwrites index M-1, so that test comes first. -/
def f1_entry (x : List ℝ) (M : ℕ) (g : ℝ) (i : ℕ) : ℝ :=
  if i = M - 1 then 1/2 * (1 - nth x 0) * (1 + g)
  else if i = 0 then 1/2 * (1 + g) * prodX x (M - 1)
  else 1/2 * (1 + g) * prodX x (M - (i + 1)) * (1 - nth x (M - (i + 1)))

/-- f1_objfun_impl: x_M is the tail of x from index m_fdim - 1; the
objective vector has m_fdim entries. -/
def f1_objfun_impl (cfg : DtlzCfg) (x : List ℝ) : List ℝ :=
  List.ofFn (fun i : Fin cfg.fdim =>
    f1_entry x cfg.fdim (g_func cfg.probId (x.drop (cfg.fdim - 1))) i.val)

/-- Left-to-right product of cos(v j * pi/2) for j < k. -/
def prodCos (v : ℕ → ℝ) : ℕ → ℝ
  | 0 => 1
  | k + 1 => prodCos v k * Real.cos (v k * (Real.pi / 2))

/-- Shared shape of f23/f4/f56: entry i of the spherical objective vector
built from component sequence v (x itself for ids 2/3, x^alpha for id 4,
theta for ids 5/6).  Index M-1 is the last assignment, tested first. -/
def sphere_entry (M : ℕ) (g : ℝ) (v : ℕ → ℝ) (i : ℕ) : ℝ :=
  if i = M - 1 then (1 + g) * Real.sin (v 0 * (Real.pi / 2))
  else if i = 0 then (1 + g) * prodCos v (M - 1)
  else (1 + g) * prodCos v (M - (i + 1)) * Real.sin (v (M - (i + 1)) * (Real.pi / 2))

/-- f23_objfun_impl: spherical shape on the raw components. -/
def f23_objfun_impl (cfg : DtlzCfg) (x : List ℝ) : List ℝ :=
  List.ofFn (fun i : Fin cfg.fdim =>
    sphere_entry cfg.fdim (g_func cfg.probId (x.drop (cfg.fdim - 1))) (nth x) i.val)

/-- f4_objfun_impl: spherical shape on pow(x[i], m_alpha) (integral
exponent m_alpha, an unsigned int). -/
def f4_objfun_impl (cfg : DtlzCfg) (x : List ℝ) : List ℝ :=
  List.ofFn (fun i : Fin cfg.fdim =>
    sphere_entry cfg.fdim (g_func cfg.probId (x.drop (cfg.fdim - 1)))
      (fun j => nth x j ^ cfg.alpha) i.val)

/-- Meta-variable theta of f56_objfun_impl: theta[0] = x[0], and for
i >= 1, theta[i] = 1/(2(1+g)) + (g * x[i]) / (1+g). -/
def theta (x : List ℝ) (g : ℝ) (i : ℕ) : ℝ :=
  if i = 0 then nth x 0 else 1 / (2 * (1 + g)) + g * nth x i / (1 + g)

/-- f56_objfun_impl: spherical shape on the meta-variables theta. -/
def f56_objfun_impl (cfg : DtlzCfg) (x : List ℝ) : List ℝ :=
  List.ofFn (fun i : Fin cfg.fdim =>
    sphere_entry cfg.fdim (g_func cfg.probId (x.drop (cfg.fdim - 1)))
      (theta x (g_func cfg.probId (x.drop (cfg.fdim - 1)))) i.val)

/-- f7_objfun_impl: g is 1 + g_func(x_M); entries below m_fdim - 1 copy
x; the zero-initialised vector f (last slot still 0) feeds h7_func, and
the last entry becomes (1 + g) * h7_func(f, g). -/
def f7_objfun_impl (cfg : DtlzCfg) (x : List ℝ) : List ℝ :=
  let M := cfg.fdim
  let g := 1 + g_func cfg.probId (x.drop (M - 1))
  let fpart := List.ofFn (fun i : Fin M => if i.val < M - 1 then nth x i.val else 0)
  fpart.take (M - 1) ++ [(1 + g) * h7_func M fpart g]

/-- fitness: the switch on m_prob_id; an id outside 1..7 leaves retval
empty. -/
def fitness (cfg : DtlzCfg) (x : List ℝ) : List ℝ :=
  if cfg.probId = 1 then f1_objfun_impl cfg x
  else if cfg.probId = 2 ∨ cfg.probId = 3 then f23_objfun_impl cfg x
  else if cfg.probId = 4 then f4_objfun_impl cfg x
  else if cfg.probId = 5 ∨ cfg.probId = 6 then f56_objfun_impl cfg x
  else if cfg.probId = 7 then f7_objfun_impl cfg x
  else []

/-- convergence_metric: g_func applied to the components of x from index
m_fdim - 1 on. -/
def convergence_metric (cfg : DtlzCfg) (x : List ℝ) : ℝ :=
  g_func cfg.probId (x.drop (cfg.fdim - 1))

/-- p_distance on a decision vector: throws when the length differs from
m_dim, else returns convergence_metric. -/
def p_distance (cfg : DtlzCfg) (x : List ℝ) : Except String ℝ :=
  if x.length ≠ cfg.dim then
    Except.error ("The size of the decision vector should be " ++ toString cfg.dim
      ++ " while " ++ toString x.length ++ " was detected")
  else
    Except.ok (convergence_metric cfg x)

/-- The accumulation loop of p_distance on a population: c += p_distance
of each member in order, propagating the first thrown error. -/
def popSum (cfg : DtlzCfg) : List (List ℝ) → Except String ℝ
  | [] => Except.ok 0
  | x :: rest => (p_distance cfg x).bind (fun v => (popSum cfg rest).map (fun s => v + s))

/-- p_distance on a population: the accumulated sum divided by pop.size(),
with no emptiness guard in the source. -/
def p_distance_pop (cfg : DtlzCfg) (pop : List (List ℝ)) : Except String ℝ :=
  (popSum cfg pop).map (fun c => c / (pop.length : ℝ))

/-- Helper: the popSum accumulation returns ok of the summed per-member
convergence metrics when every member has length m_dim. -/
theorem popSum_ok (cfg : DtlzCfg) (pop : List (List ℝ))
    (hlen : ∀ x ∈ pop, x.length = cfg.dim) :
    popSum cfg pop = Except.ok ((pop.map (fun x => convergence_metric cfg x)).sum) := by
  induction pop with
  | nil => simp [popSum]
  | cons x rest ih =>
    have hx : x.length = cfg.dim := hlen x (by simp)
    have hr := ih (fun y hy => hlen y (by simp [hy]))
    simp only [popSum, p_distance, if_neg (not_ne_iff.mpr hx), hr, List.map_cons,
      List.sum_cons]
    rfl

/-- Claim C4: construction fails with InvalidArgument exactly when prob_id
is 0 or above 7, or fdim is below 2, or fdim or dim exceeds the index-type
maximum divided by 3, or dim is at most fdim; otherwise it succeeds and
stores the four fields. -/
theorem C4_ctor_contract (p d f a : ℕ) :
    ((∃ e, dtlz_ctor p d f a = Except.error e) ↔
      (p = 0 ∨ 7 < p ∨ f < 2 ∨ size_type_max / 3 < f ∨ size_type_max / 3 < d ∨ d ≤ f)) ∧
    (¬ (p = 0 ∨ 7 < p ∨ f < 2 ∨ size_type_max / 3 < f ∨ size_type_max / 3 < d ∨ d ≤ f) →
      dtlz_ctor p d f a = Except.ok ⟨p, a, d, f⟩) := by
  unfold dtlz_ctor
  split_ifs with h1 h2 h3 h4 h5 <;> refine ⟨?_, ?_⟩ <;> simp_all <;> omega

/-- Witness for C4 at prob_id 1, dim 7, fdim 3, alpha 100. -/
theorem C4_ctor_contract_witness :
    ¬ ((1 : ℕ) = 0 ∨ 7 < (1 : ℕ) ∨ (3 : ℕ) < 2 ∨ size_type_max / 3 < 3
        ∨ size_type_max / 3 < 7 ∨ (7 : ℕ) ≤ 3) ∧
      dtlz_ctor 1 7 3 100 = Except.ok ⟨1, 100, 7, 3⟩ :=
  ⟨by decide, (C4_ctor_contract 1 7 3 100).2 (by decide)⟩

/-- Claim C2: for problem id 7, on a non-empty distance vector the
dispatched g returns (9 / size) times the sum, with no +1 offset, so it is
exactly 0 when every entry is 0. -/
theorem C2_g7_no_offset (x : List ℝ) (hx : x ≠ []) :
    g_func 7 x = 9 / (x.length : ℝ) * x.sum ∧
      ((∀ xi ∈ x, xi = 0) → g_func 7 x = 0) := by
  refine ⟨by simp [g_func, g7_func], fun h0 => ?_⟩
  have hs : x.sum = 0 := List.sum_eq_zero h0
  simp [g_func, g7_func, hs]

/-- Witness for C2 at the one-entry all-zero vector. -/
theorem C2_g7_no_offset_witness :
    ([(0 : ℝ)] ≠ []) ∧
      (g_func 7 [(0 : ℝ)] = 9 / (([(0 : ℝ)].length : ℕ) : ℝ) * [(0 : ℝ)].sum ∧
        ((∀ xi ∈ [(0 : ℝ)], xi = 0) → g_func 7 [(0 : ℝ)] = 0)) :=
  ⟨by simp, C2_g7_no_offset [0] (by simp)⟩

/-- Claim C9: for every prob_id accepted by the constructor (1 to 7), the
g_func switch enters one of the four kernel cases; the fall-through branch
returning the sentinel -1 is unreachable. -/
theorem C9_no_fallthrough (p : ℕ) (x : List ℝ) (h1 : 1 ≤ p) (h7 : p ≤ 7) :
    g_case p ≠ GCase.fallthrough ∧
      (g_func p x = g13_func x ∨ g_func p x = g245_func x ∨
        g_func p x = g6_func x ∨ g_func p x = g7_func x) := by
  interval_cases p <;> exact ⟨by decide, by simp [g_func]⟩

/-- Witness for C9 at prob_id 1 and the empty vector. -/
theorem C9_no_fallthrough_witness :
    ((1 : ℕ) ≤ 1 ∧ (1 : ℕ) ≤ 7) ∧
      (g_case 1 ≠ GCase.fallthrough ∧
        (g_func 1 [] = g13_func [] ∨ g_func 1 [] = g245_func [] ∨
          g_func 1 [] = g6_func [] ∨ g_func 1 [] = g7_func [])) :=
  ⟨by decide, C9_no_fallthrough 1 [] (by decide) (by decide)⟩

/-- Claim C1 counterexample: on the empty population, the population-level
p_distance of the validly constructed evaluator (1, dim 3, fdim 2) raises
no error at all: it returns ok, refuting the fail-fast claim. -/
theorem C1_counterexample :
    p_distance_pop ⟨1, 100, 3, 2⟩ [] = Except.ok 0 ∧
      ∀ e, p_distance_pop ⟨1, 100, 3, 2⟩ [] ≠ Except.error e := by
  refine ⟨?_, fun e h => ?_⟩
  · simp [p_distance_pop, popSum, Except.map]
  · simp [p_distance_pop, popSum, Except.map] at h

/-- Claim C1 amended: the population-level metric has no emptiness guard;
on an empty population it returns ok of the zero sum divided by the zero
population size (NaN in IEEE doubles, 0 under the total real division of
the embedding) instead of failing fast with an error. -/
theorem C1_amended_no_guard (cfg : DtlzCfg) :
    p_distance_pop cfg [] = Except.ok ((0 : ℝ) / 0) := by
  simp [p_distance_pop, popSum, Except.map]

/-- Claim C5: the per-vector p_distance errors exactly when the input
length differs from m_dim, and otherwise returns the same g dispatcher
used by fitness, applied to the trailing dim - fdim + 1 components. -/
theorem C5_p_distance_contract (cfg : DtlzCfg) (x : List ℝ)
    (hf : 2 ≤ cfg.fdim) (hd : cfg.fdim < cfg.dim) :
    ((∃ e, p_distance cfg x = Except.error e) ↔ x.length ≠ cfg.dim) ∧
      (x.length = cfg.dim →
        p_distance cfg x =
          Except.ok (g_func cfg.probId
            (x.drop (x.length - (cfg.dim - cfg.fdim + 1))))) := by
  refine ⟨⟨fun ⟨e, he⟩ => ?_, fun hne => ?_⟩, fun hlen => ?_⟩
  · intro hc
    rw [p_distance, if_neg (not_ne_iff.mpr hc)] at he
    exact Except.noConfusion he
  · exact ⟨_, by rw [p_distance, if_pos hne]⟩
  · have hidx : x.length - (cfg.dim - cfg.fdim + 1) = cfg.fdim - 1 := by omega
    rw [hidx, p_distance, if_neg (not_ne_iff.mpr hlen)]
    rfl

/-- Witness for C5 at the evaluator (1, dim 3, fdim 2) and a vector of the
correct length 3. -/
theorem C5_p_distance_contract_witness :
    p_distance ⟨1, 100, 3, 2⟩ [(0 : ℝ), 0, 0] =
      Except.ok (g_func 1 ([(0 : ℝ), 0, 0].drop
        ([(0 : ℝ), 0, 0].length - (3 - 2 + 1)))) :=
  (C5_p_distance_contract ⟨1, 100, 3, 2⟩ [0, 0, 0] (by decide) (by decide)).2 rfl

/-- Claim C7: on a non-empty population whose members all have length
m_dim, the population-level metric is the arithmetic mean (sum divided by
population size) of the per-vector metric over the members. -/
theorem C7_pop_mean (cfg : DtlzCfg) (pop : List (List ℝ))
    (hne : pop ≠ []) (hlen : ∀ x ∈ pop, x.length = cfg.dim) :
    p_distance_pop cfg pop =
      Except.ok ((pop.map (fun x => convergence_metric cfg x)).sum / (pop.length : ℝ)) := by
  rw [p_distance_pop, popSum_ok cfg pop hlen]
  rfl

/-- Witness for C7 at a one-member population. -/
theorem C7_pop_mean_witness :
    p_distance_pop ⟨1, 100, 3, 2⟩ [[(0 : ℝ), 0, 0]] =
      Except.ok (([[(0 : ℝ), 0, 0]].map
        (fun x => convergence_metric ⟨1, 100, 3, 2⟩ x)).sum
          / (([[(0 : ℝ), 0, 0]].length : ℕ) : ℝ)) :=
  C7_pop_mean ⟨1, 100, 3, 2⟩ [[(0 : ℝ), 0, 0]] (by simp) (by simp)

/-- Claim C6: the DTLZ1 evaluator with dim 3 and fdim 2 is accepted by the
constructor, maps [0.5, 0.5, 0.5] to the objective vector [0.25, 0.25]
(exactly, in real arithmetic), and has convergence metric 0 there. -/
theorem C6_scenario_a :
    dtlz_ctor 1 3 2 100 = Except.ok ⟨1, 100, 3, 2⟩ ∧
      fitness ⟨1, 100, 3, 2⟩ [(1 : ℝ)/2, 1/2, 1/2] = [1/4, 1/4] ∧
      p_distance ⟨1, 100, 3, 2⟩ [(1 : ℝ)/2, 1/2, 1/2] = Except.ok 0 := by
  have hg : g_func 1 [(1 : ℝ)/2, 1/2] = 0 := by
    norm_num [g_func, g13_func, Real.cos_zero]
  refine ⟨rfl, ?_, ?_⟩
  · show f1_objfun_impl ⟨1, 100, 3, 2⟩ [(1 : ℝ)/2, 1/2, 1/2] = [1/4, 1/4]
    norm_num [f1_objfun_impl, f1_entry, prodX, nth, List.ofFn_succ, hg]
  · rw [p_distance, if_neg (by norm_num)]
    norm_num [convergence_metric, g_func, g13_func, Real.cos_zero]

/-- Claim C8: for every problem id other than 4, two evaluators differing
only in alpha produce identical fitness vectors. -/
theorem C8_alpha_independent (p a1 a2 d f : ℕ) (x : List ℝ) (hp : p ≠ 4) :
    fitness ⟨p, a1, d, f⟩ x = fitness ⟨p, a2, d, f⟩ x := by
  simp only [fitness]
  split_ifs with h1 h2 h3 h4 h5 <;> first | rfl | exact absurd h3 hp

/-- Witness for C8: DTLZ1 evaluators with alpha 100 and alpha 7 agree. -/
theorem C8_alpha_independent_witness :
    ((1 : ℕ) ≠ 4) ∧
      fitness ⟨1, 100, 3, 2⟩ [(1 : ℝ)/2, 1/2, 1/2]
        = fitness ⟨1, 7, 3, 2⟩ [(1 : ℝ)/2, 1/2, 1/2] :=
  ⟨by decide, C8_alpha_independent 1 100 7 3 2 [(1 : ℝ)/2, 1/2, 1/2] (by decide)⟩

/-- Helper: the partially filled objective vector of f7 (components below
fdim - 1 copied from x, the rest still 0) agrees with x on its first
fdim - 1 entries. -/
theorem fpart_take_eq (x : List ℝ) (M : ℕ) (h : M - 1 ≤ x.length) :
    (List.ofFn (fun i : Fin M => if i.val < M - 1 then nth x i.val else 0)).take (M - 1)
      = x.take (M - 1) := by
  apply List.ext_getElem
  · simp only [List.length_take, List.length_ofFn]
    omega
  · intro i h1 h2
    have hi : i < M - 1 := by
      simp only [List.length_take, List.length_ofFn] at h1
      omega
    have hix : i < x.length := lt_of_lt_of_le hi h
    simp [List.getElem_take, List.getElem_ofFn, nth, hi, List.getElem?_eq_getElem hix]

/-- Claim C3: for problem 7, fitness copies the first fdim - 1 components
of x unchanged, and the last objective is (1 + gp) * h(f, gp), where
gp = 1 + g(x_M) and h subtracts from fdim the sum over all but the last
objective entry of (f[i] / (1 + gp)) * (1 + sin(3 pi f[i])). -/
theorem C3_f7_shape (cfg : DtlzCfg) (x : List ℝ) (gp : ℝ)
    (hp : cfg.probId = 7) (hx : x.length = cfg.dim)
    (hf : 2 ≤ cfg.fdim) (hd : cfg.fdim < cfg.dim)
    (hg : gp = 1 + g_func 7 (x.drop (cfg.fdim - 1))) :
    (fitness cfg x).take (cfg.fdim - 1) = x.take (cfg.fdim - 1) ∧
      (fitness cfg x).getD (cfg.fdim - 1) 0 =
        (1 + gp) * ((cfg.fdim : ℝ) - ((x.take (cfg.fdim - 1)).map
          (fun fi => fi / (1 + gp) * (1 + Real.sin (3 * Real.pi * fi)))).sum) := by
  have hfit : fitness cfg x = f7_objfun_impl cfg x := by
    simp [fitness, hp]
  have hlen : cfg.fdim - 1 ≤ x.length := by omega
  have htake := fpart_take_eq x cfg.fdim hlen
  have hlen1 : ((List.ofFn (fun i : Fin cfg.fdim =>
      if i.val < cfg.fdim - 1 then nth x i.val else 0)).take (cfg.fdim - 1)).length
        = cfg.fdim - 1 := by
    simp only [List.length_take, List.length_ofFn]
    omega
  rw [hfit]
  subst hg
  simp only [f7_objfun_impl, hp]
  constructor
  · rw [List.take_left' hlen1, htake]
  · rw [List.getD_append_right _ _ _ _ (le_of_eq hlen1), hlen1, Nat.sub_self]
    simp only [List.getD_cons_zero, h7_func, List.length_ofFn, htake]

/-- Witness for C3 at the DTLZ7 evaluator with dim 3 and fdim 2 on the
zero vector. -/
theorem C3_f7_shape_witness :
    (fitness ⟨7, 100, 3, 2⟩ [(0 : ℝ), 0, 0]).take 1 = [(0 : ℝ), 0, 0].take 1 ∧
      (fitness ⟨7, 100, 3, 2⟩ [(0 : ℝ), 0, 0]).getD 1 0 =
        (1 + (1 + g_func 7 ([(0 : ℝ), 0, 0].drop 1))) *
          (((2 : ℕ) : ℝ) - (([(0 : ℝ), 0, 0].take 1).map
            (fun fi => fi / (1 + (1 + g_func 7 ([(0 : ℝ), 0, 0].drop 1))) *
              (1 + Real.sin (3 * Real.pi * fi)))).sum) :=
  C3_f7_shape ⟨7, 100, 3, 2⟩ [0, 0, 0]
    (1 + g_func 7 ([(0 : ℝ), 0, 0].drop 1)) rfl rfl (by decide) (by decide) rfl

/-! Bounds-checked (Option-indexed) forms of the shape kernels and the
convergence metric: every x[i] of the source becomes a checked access, and
the whole computation returns none as soon as any access is out of range. -/

/-- Sequencing of a list of optional values; none as soon as one entry is
none. -/
def optList : List (Option ℝ) → Option (List ℝ)
  | [] => some []
  | o :: os => o.bind (fun v => (optList os).map (fun vs => v :: vs))

/-- Bounds-checked access x[i]. -/
def nthO (x : List ℝ) (i : ℕ) : Option ℝ := x[i]?

/-- Bounds-checked form of prodX. -/
def prodXO (x : List ℝ) : ℕ → Option ℝ
  | 0 => some 1
  | k + 1 => (prodXO x k).bind (fun p => (nthO x k).map (fun xk => p * xk))

/-- Bounds-checked form of prodCos. -/
def prodCosO (vO : ℕ → Option ℝ) : ℕ → Option ℝ
  | 0 => some 1
  | k + 1 => (prodCosO vO k).bind (fun p =>
      (vO k).map (fun t => p * Real.cos (t * (Real.pi / 2))))

/-- Bounds-checked DTLZ1 entry. -/
def f1_entryO (x : List ℝ) (M : ℕ) (g : ℝ) (i : ℕ) : Option ℝ :=
  if i = M - 1 then (nthO x 0).map (fun x0 => 1/2 * (1 - x0) * (1 + g))
  else if i = 0 then (prodXO x (M - 1)).map (fun p => 1/2 * (1 + g) * p)
  else (prodXO x (M - (i + 1))).bind (fun p =>
    (nthO x (M - (i + 1))).map (fun xc => 1/2 * (1 + g) * p * (1 - xc)))

/-- Bounds-checked spherical entry. -/
def sphere_entryO (M : ℕ) (g : ℝ) (vO : ℕ → Option ℝ) (i : ℕ) : Option ℝ :=
  if i = M - 1 then (vO 0).map (fun t => (1 + g) * Real.sin (t * (Real.pi / 2)))
  else if i = 0 then (prodCosO vO (M - 1)).map (fun p => (1 + g) * p)
  else (prodCosO vO (M - (i + 1))).bind (fun p =>
    (vO (M - (i + 1))).map (fun t => (1 + g) * p * Real.sin (t * (Real.pi / 2))))

/-- Bounds-checked theta. -/
def thetaO (x : List ℝ) (g : ℝ) (i : ℕ) : Option ℝ :=
  if i = 0 then nthO x 0
  else (nthO x i).map (fun xi => 1 / (2 * (1 + g)) + g * xi / (1 + g))

/-- The indices visited by the x_M-collecting loops: j from fdim - 1 to
the end of the decision vector. -/
def x_M_idx (fdim len : ℕ) : List ℕ := (List.range len).drop (fdim - 1)

/-- Bounds-checked collection of the distance components x_M. -/
def x_M_opt (fdim : ℕ) (x : List ℝ) : Option (List ℝ) :=
  optList ((x_M_idx fdim x.length).map (nthO x))

/-- Bounds-checked f1_objfun_impl. -/
def f1_opt (cfg : DtlzCfg) (x : List ℝ) : Option (List ℝ) :=
  (x_M_opt cfg.fdim x).bind (fun xM =>
    optList (List.ofFn (fun i : Fin cfg.fdim =>
      f1_entryO x cfg.fdim (g_func cfg.probId xM) i.val)))

/-- Bounds-checked f23_objfun_impl. -/
def f23_opt (cfg : DtlzCfg) (x : List ℝ) : Option (List ℝ) :=
  (x_M_opt cfg.fdim x).bind (fun xM =>
    optList (List.ofFn (fun i : Fin cfg.fdim =>
      sphere_entryO cfg.fdim (g_func cfg.probId xM) (nthO x) i.val)))

/-- Bounds-checked f4_objfun_impl. -/
def f4_opt (cfg : DtlzCfg) (x : List ℝ) : Option (List ℝ) :=
  (x_M_opt cfg.fdim x).bind (fun xM =>
    optList (List.ofFn (fun i : Fin cfg.fdim =>
      sphere_entryO cfg.fdim (g_func cfg.probId xM)
        (fun j => (nthO x j).map (fun xj => xj ^ cfg.alpha)) i.val)))

/-- Bounds-checked f56_objfun_impl; the first sequencing materialises the
whole theta vector, as the source loop does, so its accesses are also
checked. -/
def f56_opt (cfg : DtlzCfg) (x : List ℝ) : Option (List ℝ) :=
  (x_M_opt cfg.fdim x).bind (fun xM =>
    (optList (List.ofFn (fun i : Fin cfg.fdim =>
      thetaO x (g_func cfg.probId xM) i.val))).bind (fun _ =>
      optList (List.ofFn (fun i : Fin cfg.fdim =>
        sphere_entryO cfg.fdim (g_func cfg.probId xM)
          (thetaO x (g_func cfg.probId xM)) i.val))))

/-- Bounds-checked f7_objfun_impl. -/
def f7_opt (cfg : DtlzCfg) (x : List ℝ) : Option (List ℝ) :=
  (x_M_opt cfg.fdim x).bind (fun xM =>
    (optList (List.ofFn (fun i : Fin cfg.fdim =>
      if i.val < cfg.fdim - 1 then nthO x i.val else some 0))).map (fun fpart =>
        fpart.take (cfg.fdim - 1)
          ++ [(1 + (1 + g_func cfg.probId xM))
            * h7_func cfg.fdim fpart (1 + g_func cfg.probId xM)]))

/-- Bounds-checked convergence_metric. -/
def convergence_opt (cfg : DtlzCfg) (x : List ℝ) : Option ℝ :=
  (x_M_opt cfg.fdim x).map (g_func cfg.probId)

/-- In-bounds checked access agrees with the total access. -/
theorem nthO_eq_some (x : List ℝ) (i : ℕ) (h : i < x.length) :
    nthO x i = some (nth x i) := by
  simp [nthO, nth, List.getElem?_eq_getElem h, List.getD_eq_getElem x 0 h]

/-- Checked prefix products are defined up to the vector length. -/
theorem prodXO_eq_some (x : List ℝ) (k : ℕ) (h : k ≤ x.length) :
    prodXO x k = some (prodX x k) := by
  induction k with
  | zero => rfl
  | succ k ih =>
    rw [prodXO, ih (Nat.le_of_succ_le h), nthO_eq_some x k (Nat.lt_of_succ_le h)]
    rfl

/-- Checked cosine products are defined when every visited component is. -/
theorem prodCosO_eq_some (vO : ℕ → Option ℝ) (v : ℕ → ℝ) (k : ℕ)
    (h : ∀ j < k, vO j = some (v j)) :
    prodCosO vO k = some (prodCos v k) := by
  induction k with
  | zero => rfl
  | succ k ih =>
    rw [prodCosO, ih (fun j hj => h j (Nat.lt_succ_of_lt hj)), h k (Nat.lt_succ_self k)]
    rfl

/-- Sequencing a tuple of defined entries yields the tuple of values. -/
theorem optList_ofFn_eq_some {n : ℕ} (fO : Fin n → Option ℝ) (f : Fin n → ℝ)
    (h : ∀ i, fO i = some (f i)) :
    optList (List.ofFn fO) = some (List.ofFn f) := by
  induction n with
  | zero => rfl
  | succ n ih =>
    rw [List.ofFn_succ, List.ofFn_succ, optList, h 0,
      ih (fun i => fO i.succ) (fun i => f i.succ) (fun i => h i.succ)]
    rfl

/-- Sequencing checked accesses at in-range indices yields the accessed
values. -/
theorem optList_map_nthO (x : List ℝ) (idxs : List ℕ)
    (h : ∀ j ∈ idxs, j < x.length) :
    optList (idxs.map (nthO x)) = some (idxs.map (nth x)) := by
  induction idxs with
  | nil => rfl
  | cons j rest ih =>
    rw [List.map_cons, List.map_cons, optList, nthO_eq_some x j (h j (by simp)),
      ih (fun j hj => h j (by simp [hj]))]
    rfl

/-- The x_M-collecting loop visits exactly the suffix of x from index
fdim - 1, and every access is in range. -/
theorem x_M_opt_eq_some (fdim : ℕ) (x : List ℝ) :
    x_M_opt fdim x = some (x.drop (fdim - 1)) := by
  rw [x_M_opt, optList_map_nthO x _ (fun j hj => by
    simp only [x_M_idx] at hj
    exact List.mem_range.mp (List.mem_of_mem_drop hj))]
  congr 1
  apply List.ext_getElem
  · simp [x_M_idx]
  · intro i h1 h2
    simp only [List.getElem_map, List.getElem_drop, List.getElem_range, nth, x_M_idx]
    have hix : fdim - 1 + i < x.length := by
      simp at h2
      omega
    simp [List.getElem?_eq_getElem hix]

/-- Checked DTLZ1 entries are defined under the construction invariant. -/
theorem f1_entryO_eq_some (x : List ℝ) (M : ℕ) (g : ℝ) (i : ℕ)
    (hM : 0 < M) (hle : M ≤ x.length) :
    f1_entryO x M g i = some (f1_entry x M g i) := by
  rw [f1_entryO, f1_entry]
  split_ifs with h1 h2
  · rw [nthO_eq_some x 0 (by omega)]; rfl
  · rw [prodXO_eq_some x (M - 1) (by omega)]; rfl
  · rw [prodXO_eq_some x (M - (i + 1)) (by omega),
      nthO_eq_some x (M - (i + 1)) (by omega)]
    rfl

/-- Checked spherical entries are defined when every component below M
is. -/
theorem sphere_entryO_eq_some (M : ℕ) (g : ℝ) (vO : ℕ → Option ℝ) (v : ℕ → ℝ)
    (i : ℕ) (hM : 0 < M) (h : ∀ j < M, vO j = some (v j)) :
    sphere_entryO M g vO i = some (sphere_entry M g v i) := by
  rw [sphere_entryO, sphere_entry]
  split_ifs with h1 h2
  · rw [h 0 hM]; rfl
  · rw [prodCosO_eq_some vO v (M - 1) (fun j hj => h j (by omega))]; rfl
  · rw [prodCosO_eq_some vO v (M - (i + 1)) (fun j hj => h j (by omega)),
      h (M - (i + 1)) (by omega)]
    rfl

/-- Checked theta components are defined at in-range indices. -/
theorem thetaO_eq_some (x : List ℝ) (g : ℝ) (i : ℕ) (h : i < x.length) :
    thetaO x g i = some (theta x g i) := by
  rw [thetaO, theta]
  split_ifs with h0
  · exact nthO_eq_some x 0 (by omega)
  · rw [nthO_eq_some x i h]; rfl

/-- The safety statement of claim C10: each bounds-checked kernel returns
some of its unchecked value, and each objective vector has length fdim. -/
def kernels_safe (cfg : DtlzCfg) (x : List ℝ) : Prop :=
  f1_opt cfg x = some (f1_objfun_impl cfg x)
    ∧ (f1_objfun_impl cfg x).length = cfg.fdim
    ∧ f23_opt cfg x = some (f23_objfun_impl cfg x)
    ∧ (f23_objfun_impl cfg x).length = cfg.fdim
    ∧ f4_opt cfg x = some (f4_objfun_impl cfg x)
    ∧ (f4_objfun_impl cfg x).length = cfg.fdim
    ∧ f56_opt cfg x = some (f56_objfun_impl cfg x)
    ∧ (f56_objfun_impl cfg x).length = cfg.fdim
    ∧ f7_opt cfg x = some (f7_objfun_impl cfg x)
    ∧ (f7_objfun_impl cfg x).length = cfg.fdim
    ∧ convergence_opt cfg x = some (convergence_metric cfg x)

/-- Claim C10: under the documented precondition len(x) = dim and the
construction invariant 2 <= fdim < dim, no checked access of any shape
kernel or of the convergence metric is out of range, and every objective
vector has length exactly fdim. -/
theorem C10_bounds_safe (cfg : DtlzCfg) (x : List ℝ)
    (hx : x.length = cfg.dim) (h2 : 2 ≤ cfg.fdim) (hd : cfg.fdim < cfg.dim) :
    kernels_safe cfg x := by
  have hM : 0 < cfg.fdim := by omega
  have hle : cfg.fdim ≤ x.length := by omega
  have hnth : ∀ j < cfg.fdim, nthO x j = some (nth x j) :=
    fun j hj => nthO_eq_some x j (by omega)
  refine ⟨?_, by simp [f1_objfun_impl], ?_, by simp [f23_objfun_impl],
    ?_, by simp [f4_objfun_impl], ?_, by simp [f56_objfun_impl],
    ?_, ?_, ?_⟩
  · rw [f1_opt, x_M_opt_eq_some, Option.some_bind,
      optList_ofFn_eq_some _ _ (fun i => f1_entryO_eq_some x cfg.fdim _ i.val hM hle)]
    rfl
  · rw [f23_opt, x_M_opt_eq_some, Option.some_bind,
      optList_ofFn_eq_some _ _ (fun i => sphere_entryO_eq_some cfg.fdim _ _ (nth x)
        i.val hM hnth)]
    rfl
  · rw [f4_opt, x_M_opt_eq_some, Option.some_bind,
      optList_ofFn_eq_some _ _ (fun i => sphere_entryO_eq_some cfg.fdim _ _
        (fun j => nth x j ^ cfg.alpha) i.val hM
        (fun j hj => by rw [nthO_eq_some x j (by omega)]; rfl))]
    rfl
  · rw [f56_opt, x_M_opt_eq_some, Option.some_bind,
      optList_ofFn_eq_some _ _ (fun i => thetaO_eq_some x _ i.val (by omega)),
      Option.some_bind,
      optList_ofFn_eq_some _ _ (fun i => sphere_entryO_eq_some cfg.fdim _ _
        (theta x _) i.val hM (fun j hj => thetaO_eq_some x _ j (by omega)))]
    rfl
  · rw [f7_opt, x_M_opt_eq_some, Option.some_bind,
      optList_ofFn_eq_some _ (fun i : Fin cfg.fdim =>
        if i.val < cfg.fdim - 1 then nth x i.val else 0)
        (fun i => by
          dsimp only
          split_ifs with hc
          · exact nthO_eq_some x i.val (by omega)
          · rfl)]
    rfl
  · simp only [f7_objfun_impl, List.length_append, List.length_take,
      List.length_ofFn, List.length_singleton]
    omega
  · rw [convergence_opt, x_M_opt_eq_some]
    rfl

/-- Witness for C10 at the evaluator configuration (7, dim 3, fdim 2) and
the zero vector of length 3. -/
theorem C10_bounds_safe_witness :
    kernels_safe ⟨7, 100, 3, 2⟩ [(0 : ℝ), 0, 0] :=
  C10_bounds_safe ⟨7, 100, 3, 2⟩ [(0 : ℝ), 0, 0] rfl (by decide) (by decide)

end Dtlz
